import Mathlib

/-!
Verification development for the `ScreenCapture` Win32 DLL
(`src/ScreenCapture.cpp`): a shallow embedding of its window-capture,
compositing and file-naming logic, plus theorems checking the
natural-language specification against that embedding.

Modelling conventions:
* The windowing system (Win32) is an oracle structure `WinEnv` whose fields
  are the API calls the code makes (`IsWindow`, `GetWindowRect`,
  `DwmGetWindowAttribute(DWMWA_EXTENDED_FRAME_BOUNDS)`, `GetClientRect`,
  `ClientToScreen`, `PrintWindow`, screen pixels, `WindowFromPoint`,
  `IsWindowVisible`, `GetAncestor`, window title / class name, and the
  availability of the PNG encoder).  A capture request is synchronous
  (spec section 5), so the environment is fixed during one request.
* `HWND` values are `Nat`; a nullable `HWND` is an `Option Nat`.
* Pixel surfaces are total functions `Int → Int → Nat`; a `w×h` bitmap is
  such a function read on `[0,w) × [0,h)`.  `BitBlt` becomes `BlitBitmap`.
* The filesystem is the list of existing paths (`PathFileExistsW` becomes
  list membership); "saving" is returning a `CapResult.saved`.
* The fixed `WCHAR fullPath[MAX_PATH]` buffer and the `wcscpy_s` /
  `wcscat_s` calls in `GenerateFileName` are modelled exactly: the secure
  CRT functions invoke the invalid-parameter handler (which by default
  terminates the process) when the destination capacity is exceeded, which
  the model renders as `Except.error`.
-/

/-- Screen-coordinate rectangle, as Win32 `RECT` (`left`, `top`, `right`,
`bottom`, all machine integers; screen coordinates stay far from the 32-bit
range so plain `Int` is faithful). -/
structure Rect where
  left : Int
  top : Int
  right : Int
  bottom : Int
deriving DecidableEq

/-- `MAX_PATH`: capacity (in `WCHAR`s, including the terminating NUL) of the
`fullPath` buffer in `GenerateFileName`. -/
def MAX_PATH : Nat := 260

/-- The characters `GenerateFileName` replaces (source line 60): characters
illegal in Windows file names. -/
def isIllegalFileChar (c : Char) : Bool :=
  c == '/' || c == '\\' || c == ':' || c == '*' || c == '?' ||
  c == '"' || c == '<' || c == '>' || c == '|'

/-- The sanitization loop of `GenerateFileName` (source lines 59–63): each
illegal character of the name is replaced by an underscore. -/
def sanitizeFileName (s : String) : String :=
  String.mk (s.data.map (fun c => if isIllegalFileChar c then '_' else c))

/-- Base-name computation of `GenerateFileName` (source lines 48–66):
window title if non-empty, else the class name; sanitize; fall back to
`"window"` when the sanitized name is empty.  `title` and `className` are
the strings read from the window (the 256-`WCHAR` buffers bound them to
255 characters). -/
def GenerateBaseName (title className : String) : String :=
  let name := if title.data.isEmpty then className else title
  let name := sanitizeFileName name
  if name.data.isEmpty then "window" else name

/-- `wcscpy_s` into a buffer of capacity `cap` `WCHAR`s: succeeds exactly
when the source (plus terminating NUL) fits, otherwise the invalid-parameter
handler terminates the process (modelled as `error`). -/
def wcscpyS (cap : Nat) (src : String) : Except Unit String :=
  if src.length + 1 ≤ cap then .ok src else .error ()

/-- `wcscat_s` on a buffer of capacity `cap` currently holding `dst`. -/
def wcscatS (cap : Nat) (dst src : String) : Except Unit String :=
  if dst.length + src.length + 1 ≤ cap then .ok (dst ++ src) else .error ()

/-- `GenerateFileName` (source lines 48–79): base name from title/class,
then `basePath` + (`\` if missing) + name + `".png"` assembled by
`wcscpy_s`/`wcscat_s` into a `WCHAR[MAX_PATH]` buffer.  An `error` result is
a process abort inside the secure CRT. -/
def GenerateFileName (basePath title className : String) : Except Unit String :=
  let name := GenerateBaseName title className
  match wcscpyS MAX_PATH basePath with
  | .error e => .error e
  | .ok p0 =>
    match (if p0.length > 0 ∧ p0.data.getLast? ≠ some '\\' then
             wcscatS MAX_PATH p0 "\\" else .ok p0) with
    | .error e => .error e
    | .ok p1 =>
      match wcscatS MAX_PATH p1 name with
      | .error e => .error e
      | .ok p2 => wcscatS MAX_PATH p2 ".png"

/-- `PathFileExistsW` against the modelled filesystem (list of existing
paths). -/
def pathFileExists (fs : List String) (p : String) : Bool :=
  fs.contains p

/-- Index (in characters) of the last `'.'` of a character list, as
`std::wstring::find_last_of(L'.')`. -/
def lastDotIdx : List Char → Option Nat
  | [] => none
  | c :: rest =>
    match lastDotIdx rest with
    | some i => some (i + 1)
    | none => if c == '.' then some 0 else none

/-- The `base`/`ext` split of `EnsureUniquePath` (source lines 84–86):
`base = path.substr(0, dotPos)`, `ext = path.substr(dotPos)` (the extension
keeps the dot); no dot means `base = path`, `ext = ""`. -/
def splitAtLastDot (p : String) : String × String :=
  match lastDotIdx p.data with
  | none => (p, "")
  | some i => (String.mk (p.data.take i), String.mk (p.data.drop i))

/-- One candidate of the collision loop: `base << "-" << idx << ext`
(source lines 90–92; `operator<<` on an `int` prints decimal digits, which
is `Nat.repr` for the non-negative indices the loop uses). -/
def mkCandidate (p : String) (idx : Nat) : String :=
  (splitAtLastDot p).1 ++ "-" ++ Nat.repr idx ++ (splitAtLastDot p).2

/-- The `do … while (PathFileExistsW(candidate))` loop of `EnsureUniquePath`
(source lines 87–94), fuel-bounded: starting at `idx`, return the first
index whose candidate does not exist.  `EnsureUniquePath` supplies fuel
`fs.length + 1`, which is shown sufficient (`firstFreeIdx_eq` /
`C5`'s pigeonhole argument) because distinct indices give distinct
candidate strings. -/
def firstFreeIdx (fs : List String) (p : String) : Nat → Nat → Nat
  | 0, idx => idx
  | fuel + 1, idx =>
    if pathFileExists fs (mkCandidate p idx) then firstFreeIdx fs p fuel (idx + 1)
    else idx

/-- `EnsureUniquePath` (source lines 81–98): return `path` unchanged when no
file exists at it, else the first candidate `base-N ext` (N = 1, 2, …) that
does not exist. -/
def EnsureUniquePath (fs : List String) (p : String) : String :=
  if pathFileExists fs p then mkCandidate p (firstFreeIdx fs p (fs.length + 1) 1)
  else p

/-- The Win32 calls the capture code makes, as an oracle fixed for the
duration of one (synchronous) capture request.  `none` results model `NULL`
handles / failed calls. -/
structure WinEnv where
  isWindow : Nat → Bool
  getWindowRect : Nat → Option Rect
  dwmExtendedFrameBounds : Nat → Option Rect
  getClientRect : Nat → Rect
  clientToScreen : Nat → Int × Int
  printWindowOk : Nat → Bool
  printWindowPix : Nat → Int → Int → Nat
  screen : Int → Int → Nat
  windowFromPoint : Int × Int → Option Nat
  isWindowVisible : Nat → Bool
  gaRoot : Nat → Option Nat
  gaRootOwner : Nat → Option Nat
  getWindowTitle : Nat → String
  getClassName : Nat → String
  pngEncoderOk : Bool

/-- A rendered window: the extended bounds it was captured from plus its
pixel buffer (read on `[0, width) × [0, height)`). -/
structure Snapshot where
  ext : Rect
  buf : Int → Int → Nat

/-- `BlitBitmap` / `BitBlt(dst, dx, dy, w, h, src, 0, 0, SRCCOPY)`: the
destination surface updated with the `w×h` source placed at `(dx, dy)`. -/
def BlitBitmap (dst : Int → Int → Nat) (dx dy w h : Int)
    (src : Int → Int → Nat) : Int → Int → Nat :=
  fun x y =>
    if dx ≤ x ∧ x < dx + w ∧ dy ≤ y ∧ y < dy + h then src (x - dx) (y - dy)
    else dst x y

/-- `GetExtendedRect` (source lines 164–175): extended frame bounds when
DWM reports them, else the basic `GetWindowRect` rectangle; fails on an
invalid window or a failed `GetWindowRect`. -/
def GetExtendedRect (env : WinEnv) (hwnd : Nat) : Option Rect :=
  if env.isWindow hwnd = false then none
  else
    match env.getWindowRect hwnd with
    | none => none
    | some r =>
      match env.dwmExtendedFrameBounds hwnd with
      | some rex => some rex
      | none => some r

/-- `RenderWindowBitmap` (source lines 203–256): seed the extended-bounds
buffer from the screen, then overlay the client area via `PrintWindow`; when
`PrintWindow` fails, the `else` branch re-copies the client region from the
screen.  Fails (`none`) on an invalid window, a failed `GetWindowRect`, or
degenerate extended bounds. -/
def RenderWindowBitmap (env : WinEnv) (hwnd : Nat) : Option Snapshot :=
  if env.isWindow hwnd = false then none
  else
    match env.getWindowRect hwnd with
    | none => none
    | some rcWin =>
      let rcExt := (GetExtendedRect env hwnd).getD rcWin
      let w := rcExt.right - rcExt.left
      let h := rcExt.bottom - rcExt.top
      if w ≤ 0 ∨ h ≤ 0 then none
      else
        let seed : Int → Int → Nat := fun x y =>
          env.screen (rcExt.left + x) (rcExt.top + y)
        let rcCli := env.getClientRect hwnd
        let ptCli := env.clientToScreen hwnd
        let cw := rcCli.right - rcCli.left
        let ch := rcCli.bottom - rcCli.top
        let dx := ptCli.1 - rcExt.left
        let dy := ptCli.2 - rcExt.top
        let buf :=
          if 0 < cw ∧ 0 < ch then
            if env.printWindowOk hwnd then
              BlitBitmap seed dx dy cw ch (env.printWindowPix hwnd)
            else
              BlitBitmap seed dx dy cw ch
                (fun i j => env.screen (ptCli.1 + i) (ptCli.2 + j))
          else seed
        some ⟨rcExt, buf⟩

/-- Outcome of a capture routine: returned without writing a file, process
aborted inside the secure CRT (`GenerateFileName` buffer overflow), or a
PNG persisted at `path` with bounds `ext` and pixels `buf`. -/
inductive CapResult where
  | noFile
  | crashed
  | saved (path : String) (ext : Rect) (buf : Int → Int → Nat)

/-- `CaptureWindow` (source lines 100–161): the single-window capture.
Same seed-and-overlay as `RenderWindowBitmap` but with no `else` fallback
blit after a failed `PrintWindow`, then name, uniquify and save (saving
requires the PNG encoder; `GetEncoderClsid < 0` skips the save). -/
def CaptureWindow (env : WinEnv) (fs : List String) (basePath : String)
    (hwnd : Nat) : CapResult :=
  if env.isWindow hwnd = false then .noFile
  else
    match env.getWindowRect hwnd with
    | none => .noFile
    | some rcWin =>
      let rcExt :=
        match env.dwmExtendedFrameBounds hwnd with
        | some rex => rex
        | none => rcWin
      let extW := rcExt.right - rcExt.left
      let extH := rcExt.bottom - rcExt.top
      if extW ≤ 0 ∨ extH ≤ 0 then .noFile
      else
        let seed : Int → Int → Nat := fun x y =>
          env.screen (rcExt.left + x) (rcExt.top + y)
        let rcClient := env.getClientRect hwnd
        let ptClient := env.clientToScreen hwnd
        let cW := rcClient.right - rcClient.left
        let cH := rcClient.bottom - rcClient.top
        let buf :=
          if 0 < cW ∧ 0 < cH then
            if env.printWindowOk hwnd then
              BlitBitmap seed (ptClient.1 - rcExt.left) (ptClient.2 - rcExt.top)
                cW cH (env.printWindowPix hwnd)
            else seed
          else seed
        match GenerateFileName basePath (env.getWindowTitle hwnd)
            (env.getClassName hwnd) with
        | .error _ => .crashed
        | .ok path0 =>
          let path := EnsureUniquePath fs path0
          if env.pngEncoderOk then .saved path rcExt buf else .noFile

/-- The `WHITE_BRUSH` fill value of the composite canvas. -/
def WHITE_PIXEL : Nat := 16777215

/-- The union-canvas construction of `CaptureWindowUnion` (source lines
281–315): union rectangle by min/max, white fill, then the `behind`
snapshot and finally the `child` (foreground) snapshot blitted at their
offsets relative to the union origin. -/
def compositeCanvas (behind child : Snapshot) : Rect × (Int → Int → Nat) :=
  let rcU : Rect :=
    ⟨min child.ext.left behind.ext.left, min child.ext.top behind.ext.top,
     max child.ext.right behind.ext.right, max child.ext.bottom behind.ext.bottom⟩
  let pw := behind.ext.right - behind.ext.left
  let ph := behind.ext.bottom - behind.ext.top
  let cw := child.ext.right - child.ext.left
  let ch := child.ext.bottom - child.ext.top
  let canvas0 : Int → Int → Nat := fun _ _ => WHITE_PIXEL
  let canvas1 := BlitBitmap canvas0 (behind.ext.left - rcU.left)
    (behind.ext.top - rcU.top) pw ph behind.buf
  let canvas2 := BlitBitmap canvas1 (child.ext.left - rcU.left)
    (child.ext.top - rcU.top) cw ch child.buf
  (rcU, canvas2)

/-- `CaptureWindowUnion` (source lines 269–332): render both windows (both
must succeed, else return with no file), composite onto the union canvas,
then name (after the foreground `child`), uniquify and save. -/
def CaptureWindowUnion (env : WinEnv) (fs : List String) (basePath : String)
    (child behind : Nat) : CapResult :=
  if env.isWindow child = false ∨ env.isWindow behind = false then .noFile
  else
    match RenderWindowBitmap env child, RenderWindowBitmap env behind with
    | some snapChild, some snapBehind =>
      let rcU := (compositeCanvas snapBehind snapChild).1
      let canvas := (compositeCanvas snapBehind snapChild).2
      let w := rcU.right - rcU.left
      let h := rcU.bottom - rcU.top
      if w ≤ 0 ∨ h ≤ 0 then .noFile
      else
        match GenerateFileName basePath (env.getWindowTitle child)
            (env.getClassName child) with
        | .error _ => .crashed
        | .ok path0 =>
          let path := EnsureUniquePath fs path0
          if env.pngEncoderOk then .saved path rcU canvas else .noFile
    | _, _ => .noFile

/-- `ResolveTopLevel` (source lines 177–180): `GetAncestor(h, GA_ROOT)` of a
valid window, else `NULL`. -/
def ResolveTopLevel (env : WinEnv) (h : Nat) : Option Nat :=
  if env.isWindow h = false then none else env.gaRoot h

/-- The body of `FindLikelyParentByPoint`'s probe loop (source lines
189–196), at offset `d`: the window at the screen point `d` pixels above
`(cx, topY)` is a hit when it is visible and its (non-null) top-level
ancestor differs from the child's. -/
def FindLikelyParentProbe (env : WinEnv) (child : Nat) (cx topY d : Int) :
    Option Nat :=
  match env.windowFromPoint (cx, topY - d) with
  | none => none
  | some h =>
    if env.isWindowVisible h then
      match ResolveTopLevel env h with
      | some top =>
        if some top ≠ ResolveTopLevel env child then some top else none
      | none => none
    else none

/-- `FindLikelyParentByPoint` (source lines 182–199): probe the points 6, 14
and 24 pixels above the centre of the child's top edge; the first probe
hitting a visible window whose (non-null) top-level ancestor differs from
the child's wins; otherwise fall back to `GetAncestor(child, GA_ROOTOWNER)`. -/
def FindLikelyParentByPoint (env : WinEnv) (child : Nat) : Option Nat :=
  if env.isWindow child = false then none
  else
    match env.getWindowRect child with
    | none => none
    | some rc =>
      let cx := rc.left + Int.tdiv (rc.right - rc.left) 2
      match ([6, 14, 24] : List Int).findSome?
          (FindLikelyParentProbe env child cx rc.top) with
      | some top => some top
      | none => env.gaRootOwner child

/-- The capture decision taken by the Shift+F11 branch of `GetMsgProc`
(source lines 350–361). -/
inductive CaptureAction where
  | unionCapture (fg bg : Nat)
  | singleCapture (w : Nat)
deriving DecidableEq

/-- Shift+F11 branch of `GetMsgProc` (source lines 350–361): composite with
the point-probed parent when it exists and differs from the primary `root`,
else a single-window capture of `root`. -/
def GetMsgProcShiftAction (env : WinEnv) (root : Nat) : CaptureAction :=
  match FindLikelyParentByPoint env root with
  | some p => if p ≠ root then .unionCapture root p else .singleCapture root
  | none => .singleCapture root

/-- Claim-side description of one probe (spec section 4.1 wording): a
candidate is the resolved top-level ancestor of the window occupying the
probed screen point, provided that window is visible and that ancestor
differs from the primary's. -/
def SpecProbeCandidate (env : WinEnv) (primary : Nat) (pt : Int × Int) :
    Option Nat :=
  match env.windowFromPoint pt with
  | none => none
  | some h =>
    if env.isWindowVisible h ∧
        ResolveTopLevel env h ≠ ResolveTopLevel env primary then
      ResolveTopLevel env h
    else none

/-- Claim-side description of background resolution (spec section 4.1
wording): probe, in order, the three screen points 6, 14 and 24 pixels
above the horizontal centre of the primary's top edge; take the first
candidate, else fall back to the primary's topmost ancestor including owner
relationships. -/
def SpecBackgroundResolve (env : WinEnv) (primary : Nat) (rc : Rect) :
    Option Nat :=
  let cx := rc.left + Int.tdiv (rc.right - rc.left) 2
  match ([(cx, rc.top - 6), (cx, rc.top - 14), (cx, rc.top - 24)] :
      List (Int × Int)).findSome? (SpecProbeCandidate env primary) with
  | some top => some top
  | none => env.gaRootOwner primary

/-- Global DLL state touched by `RecordScreen`: the stored base output
directory and the installed keyboard hook (if any). -/
structure DllState where
  g_basePath : List Char
  g_hHook : Option Nat
deriving DecidableEq

/-- `RecordScreen` (source lines 367–381).  `decode` models the
`MultiByteToWideChar(CP_UTF8, …)` pair (`none` = the sizing call returned
`len ≤ 0`; `some` includes the terminating NUL, which the code pops);
`newHook` is the `SetWindowsHookExW` result.  A `NULL` path or a failed
conversion returns before any global is touched. -/
def RecordScreen (decode : List Nat → Option (List Char)) (newHook : Option Nat)
    (st : DllState) (path : Option (List Nat)) : DllState :=
  match path with
  | none => st
  | some bytes =>
    match decode bytes with
    | none => st
    | some wchars =>
      let wpath :=
        if wchars ≠ [] ∧ wchars.getLast? = some (Char.ofNat 0) then
          wchars.dropLast
        else wchars
      { g_basePath := wpath, g_hHook := newHook }

/-- Axis-aligned containment of one rectangle in another. -/
def Rect.containsRect (outer inner : Rect) : Prop :=
  outer.left ≤ inner.left ∧ outer.top ≤ inner.top ∧
  inner.right ≤ outer.right ∧ inner.bottom ≤ outer.bottom

/-- The placement of snapshot `s` inside a canvas whose bounds are `u`:
canvas pixel `(x, y)` lies inside the region where `s` was blitted. -/
def placedAt (u : Rect) (s : Snapshot) (x y : Int) : Prop :=
  s.ext.left - u.left ≤ x ∧
  x < s.ext.left - u.left + (s.ext.right - s.ext.left) ∧
  s.ext.top - u.top ≤ y ∧
  y < s.ext.top - u.top + (s.ext.bottom - s.ext.top)

instance (u : Rect) (s : Snapshot) (x y : Int) : Decidable (placedAt u s x y) := by
  unfold placedAt; infer_instance

/-- Decimal value of an ASCII digit character. -/
def decDigitVal (c : Char) : Nat := c.toNat - 48

/-- Decimal value of a most-significant-digit-first character list. -/
def decValue (l : List Char) : Nat :=
  l.foldl (fun a c => 10 * a + decDigitVal c) 0

/-- A small concrete environment used by witnesses: valid windows with
simple rectangles, no DWM extended bounds, `PrintWindow` refused. -/
def C3env : WinEnv :=
  ⟨fun _ => true, fun _ => some ⟨0, 0, 4, 4⟩, fun _ => none,
   fun _ => ⟨0, 0, 2, 2⟩, fun _ => (1, 1), fun _ => false, fun _ _ _ => 0,
   fun x y => (x + y).toNat, fun _ => none, fun _ => false, fun _ => some 1,
   fun _ => some 1, fun _ => "t", fun _ => "c", true⟩

/-- A concrete environment for the C7 witness: the primary window `1` at
`⟨0, 10, 10, 20⟩`, and a visible window `2` under the probe point `(5, 4)`
(6 pixels above the top-centre) that is its own top-level ancestor. -/
def C7env : WinEnv :=
  ⟨fun _ => true, fun _ => some ⟨0, 10, 10, 20⟩, fun _ => none,
   fun _ => ⟨0, 0, 1, 1⟩, fun _ => (0, 0), fun _ => true, fun _ _ _ => 0,
   fun _ _ => 0, fun pt => if pt = ((5 : Int), (4 : Int)) then some 2 else none,
   fun h => h == 2, fun h => some h, fun h => some h,
   fun _ => "t", fun _ => "c", true⟩

/-- Helper: membership form of `pathFileExists`. -/
lemma pathFileExists_iff (fs : List String) (p : String) :
    pathFileExists fs p = true ↔ p ∈ fs := by
  simp [pathFileExists, List.elem_iff]

/-- C10: calling `RecordScreen` with a null path pointer, or with a byte
string whose UTF-8 → UTF-16 conversion fails, returns with no state change:
the stored base directory keeps its previous value and the previously
installed hook is kept, not replaced. -/
theorem C10_record_screen_failure_preserves_state
    (decode : List Nat → Option (List Char)) (newHook : Option Nat)
    (st : DllState) (bytes : List Nat) (hdec : decode bytes = none) :
    RecordScreen decode newHook st none = st ∧
    RecordScreen decode newHook st (some bytes) = st := by
  refine ⟨rfl, ?_⟩
  unfold RecordScreen
  simp [hdec]

/-- Witness for C10 at a concrete state, hook and failing byte string. -/
theorem C10_record_screen_failure_preserves_state_witness :
    RecordScreen (fun _ => none) (some 9) ⟨['a'], some 3⟩ none = ⟨['a'], some 3⟩ ∧
    RecordScreen (fun _ => none) (some 9) ⟨['a'], some 3⟩ (some [255]) = ⟨['a'], some 3⟩ :=
  C10_record_screen_failure_preserves_state (fun _ => none) (some 9) ⟨['a'], some 3⟩ [255] rfl

/-- C4: if rendering either the foreground (`child`) or the background
(`behind`) window fails, `CaptureWindowUnion` returns with no file written
— in particular it neither crashes nor persists a single-window capture of
the surviving window. -/
theorem C4_render_failure_aborts_composite (env : WinEnv) (fs : List String)
    (basePath : String) (child behind : Nat)
    (h : RenderWindowBitmap env child = none ∨ RenderWindowBitmap env behind = none) :
    CaptureWindowUnion env fs basePath child behind = .noFile := by
  unfold CaptureWindowUnion
  split
  · rfl
  · rcases h with h | h
    · cases hb : RenderWindowBitmap env behind <;> simp [h, hb]
    · cases hc : RenderWindowBitmap env child <;> simp [h, hc]

/-- Witness for C4: a window that is no longer valid fails to render, and
the composite request writes nothing. -/
theorem C4_render_failure_aborts_composite_witness :
    CaptureWindowUnion
      ⟨fun _ => false, fun _ => none, fun _ => none, fun _ => ⟨0, 0, 0, 0⟩,
       fun _ => (0, 0), fun _ => false, fun _ _ _ => 0, fun _ _ => 0,
       fun _ => none, fun _ => false, fun _ => none, fun _ => none,
       fun _ => "", fun _ => "", true⟩ [] "C:\\x" 1 2 = .noFile :=
  C4_render_failure_aborts_composite _ [] "C:\\x" 1 2 (Or.inl rfl)

/-- C8: when the resolved capture rectangle (extended bounds, or the basic
bounds when DWM reports none) has non-positive width or height — including
`right < left` — the renderer fails and the single-window capture returns
normally having written no file (and without reaching the path-buffer code
that could abort). -/
theorem C8_degenerate_bounds_rejected (env : WinEnv) (fs : List String)
    (basePath : String) (hwnd : Nat) (rcWin rcExt : Rect)
    (hrc : env.getWindowRect hwnd = some rcWin)
    (hext : (match env.dwmExtendedFrameBounds hwnd with
             | some rex => rex
             | none => rcWin) = rcExt)
    (hdeg : rcExt.right - rcExt.left ≤ 0 ∨ rcExt.bottom - rcExt.top ≤ 0) :
    RenderWindowBitmap env hwnd = none ∧
    CaptureWindow env fs basePath hwnd = .noFile := by
  cases hw : env.isWindow hwnd with
  | false =>
    constructor
    · unfold RenderWindowBitmap; rw [hw]; rfl
    · unfold CaptureWindow; rw [hw]; rfl
  | true =>
    constructor
    · unfold RenderWindowBitmap GetExtendedRect
      rw [hw, hrc]
      cases hd : env.dwmExtendedFrameBounds hwnd <;>
        rw [hd] at hext <;> simp_all
    · unfold CaptureWindow
      rw [hw, hrc]
      cases hd : env.dwmExtendedFrameBounds hwnd <;>
        rw [hd] at hext <;> simp_all

/-- Witness for C8: a window reporting `right < left`. -/
theorem C8_degenerate_bounds_rejected_witness :
    RenderWindowBitmap
      ⟨fun _ => true, fun _ => some ⟨5, 0, 3, 10⟩, fun _ => none,
       fun _ => ⟨0, 0, 0, 0⟩, fun _ => (0, 0), fun _ => false, fun _ _ _ => 0,
       fun _ _ => 0, fun _ => none, fun _ => false, fun _ => none,
       fun _ => none, fun _ => "t", fun _ => "c", true⟩ 1 = none ∧
    CaptureWindow
      ⟨fun _ => true, fun _ => some ⟨5, 0, 3, 10⟩, fun _ => none,
       fun _ => ⟨0, 0, 0, 0⟩, fun _ => (0, 0), fun _ => false, fun _ _ _ => 0,
       fun _ _ => 0, fun _ => none, fun _ => false, fun _ => none,
       fun _ => none, fun _ => "t", fun _ => "c", true⟩ [] "C:\\x" 1 = .noFile :=
  C8_degenerate_bounds_rejected _ [] "C:\\x" 1 ⟨5, 0, 3, 10⟩ ⟨5, 0, 3, 10⟩
    rfl rfl (Or.inl (by decide))

/-- Congruence helper for applying a two-argument pixel function to equal
coordinates. -/
lemma apply2_congr (f : Int → Int → Nat) {a b c d : Int} (h1 : a = c)
    (h2 : b = d) : f a b = f c d := by rw [h1, h2]

/-- C3: when the overlay pass (`PrintWindow`) fails for a window, the
rendered buffer is pixel-for-pixel the seed-pass content — the screen copy
taken at the extended bounds — both for `RenderWindowBitmap` (whose `else`
branch re-copies exactly the same screen pixels into the client region,
leaving the seed content unchanged) and for the buffer `CaptureWindow`
saves (which performs no further write at all). -/
theorem C3_failed_overlay_keeps_seed (env : WinEnv) (hwnd : Nat)
    (hpw : env.printWindowOk hwnd = false) :
    (∀ snap : Snapshot, RenderWindowBitmap env hwnd = some snap →
      ∀ x y : Int, snap.buf x y = env.screen (snap.ext.left + x) (snap.ext.top + y)) ∧
    (∀ (fs : List String) (basePath path : String) (ext : Rect)
        (buf : Int → Int → Nat),
      CaptureWindow env fs basePath hwnd = .saved path ext buf →
      ∀ x y : Int, buf x y = env.screen (ext.left + x) (ext.top + y)) := by
  constructor
  · intro snap hr x y
    unfold RenderWindowBitmap at hr
    cases hw : env.isWindow hwnd <;> rw [hw] at hr
    · simp at hr
    · cases hg : env.getWindowRect hwnd <;> rw [hg] at hr
      · simp at hr
      · dsimp only at hr
        rw [hpw] at hr
        simp only [Bool.false_eq_true, if_false] at hr
        split at hr
        · cases hr
        · split at hr
          · cases hr
          · rw [Option.some_inj] at hr
            subst hr
            dsimp only
            split
            · unfold BlitBitmap
              split
              · beta_reduce
                exact apply2_congr env.screen (by omega) (by omega)
              · rfl
            · rfl
  · intro fs basePath path ext buf hc x y
    unfold CaptureWindow at hc
    cases hw : env.isWindow hwnd <;> rw [hw] at hc
    · simp at hc
    · cases hg : env.getWindowRect hwnd <;> rw [hg] at hc
      · simp at hc
      · dsimp only at hc
        rw [hpw] at hc
        simp only [Bool.false_eq_true, if_false] at hc
        split at hc
        · cases hc
        · split at hc
          · cases hc
          · split at hc
            · cases hc
            · split at hc
              · cases hc
                split <;> rfl
              · cases hc

/-- Witness for C3: a concrete window whose `PrintWindow` is refused; the
rendered buffer and the saved single-window buffer are the screen content
at the extended bounds. -/
theorem C3_failed_overlay_keeps_seed_witness :
    (∀ snap : Snapshot,
      RenderWindowBitmap C3env 1 = some snap →
      ∀ x y : Int,
        snap.buf x y = C3env.screen (snap.ext.left + x) (snap.ext.top + y)) ∧
    (∀ (fs : List String) (basePath path : String) (ext : Rect)
        (buf : Int → Int → Nat),
      CaptureWindow C3env fs basePath 1 = .saved path ext buf →
      ∀ x y : Int, buf x y = C3env.screen (ext.left + x) (ext.top + y)) :=
  C3_failed_overlay_keeps_seed C3env 1 rfl

/-- C1: the composite canvas of two non-degenerate snapshots has bounds
equal to the smallest axis-aligned rectangle `U` containing both the
background bounds `A` and the foreground bounds `B` (componentwise min/max),
and each snapshot is placed at exactly `(its.left − U.left, its.top − U.top)`:
the foreground is read back unchanged over its whole placement, the
background over all of its placement not covered by the foreground. -/
theorem C1_union_bounds_and_offsets (behind child : Snapshot)
    (hbw : 0 < behind.ext.right - behind.ext.left)
    (hbh : 0 < behind.ext.bottom - behind.ext.top)
    (hcw : 0 < child.ext.right - child.ext.left)
    (hch : 0 < child.ext.bottom - child.ext.top) :
    (compositeCanvas behind child).1 =
      ⟨min behind.ext.left child.ext.left, min behind.ext.top child.ext.top,
       max behind.ext.right child.ext.right,
       max behind.ext.bottom child.ext.bottom⟩ ∧
    ((compositeCanvas behind child).1).containsRect behind.ext ∧
    ((compositeCanvas behind child).1).containsRect child.ext ∧
    (∀ v : Rect, v.containsRect behind.ext → v.containsRect child.ext →
      v.containsRect (compositeCanvas behind child).1) ∧
    (∀ x y : Int, placedAt (compositeCanvas behind child).1 behind x y →
      ¬ placedAt (compositeCanvas behind child).1 child x y →
      (compositeCanvas behind child).2 x y =
        behind.buf (x - (behind.ext.left - (compositeCanvas behind child).1.left))
          (y - (behind.ext.top - (compositeCanvas behind child).1.top))) ∧
    (∀ x y : Int, placedAt (compositeCanvas behind child).1 child x y →
      (compositeCanvas behind child).2 x y =
        child.buf (x - (child.ext.left - (compositeCanvas behind child).1.left))
          (y - (child.ext.top - (compositeCanvas behind child).1.top))) := by
  refine ⟨?_, ?_, ?_, ?_, ?_, ?_⟩
  · unfold compositeCanvas
    dsimp only
    rw [min_comm child.ext.left, min_comm child.ext.top,
      max_comm child.ext.right, max_comm child.ext.bottom]
  · unfold compositeCanvas Rect.containsRect
    dsimp only
    refine ⟨?_, ?_, ?_, ?_⟩ <;> omega
  · unfold compositeCanvas Rect.containsRect
    dsimp only
    refine ⟨?_, ?_, ?_, ?_⟩ <;> omega
  · intro v hb hc
    unfold compositeCanvas Rect.containsRect at *
    dsimp only at *
    omega
  · intro x y hb hc
    unfold compositeCanvas placedAt at *
    unfold BlitBitmap
    dsimp only at *
    rw [if_neg (by omega), if_pos (by omega)]
  · intro x y hc
    unfold compositeCanvas placedAt at *
    unfold BlitBitmap
    dsimp only at *
    rw [if_pos (by omega)]

/-- Witness for C1 at two concrete overlapping snapshots. -/
theorem C1_union_bounds_and_offsets_witness :
    (compositeCanvas ⟨⟨0, 0, 2, 2⟩, fun _ _ => 7⟩ ⟨⟨1, 1, 3, 3⟩, fun _ _ => 9⟩).1 =
      ⟨min 0 1, min 0 1, max 2 3, max 2 3⟩ ∧
    ((compositeCanvas ⟨⟨0, 0, 2, 2⟩, fun _ _ => 7⟩ ⟨⟨1, 1, 3, 3⟩, fun _ _ => 9⟩).1).containsRect ⟨0, 0, 2, 2⟩ ∧
    ((compositeCanvas ⟨⟨0, 0, 2, 2⟩, fun _ _ => 7⟩ ⟨⟨1, 1, 3, 3⟩, fun _ _ => 9⟩).1).containsRect ⟨1, 1, 3, 3⟩ ∧
    (∀ v : Rect, v.containsRect ⟨0, 0, 2, 2⟩ → v.containsRect ⟨1, 1, 3, 3⟩ →
      v.containsRect (compositeCanvas ⟨⟨0, 0, 2, 2⟩, fun _ _ => 7⟩ ⟨⟨1, 1, 3, 3⟩, fun _ _ => 9⟩).1) ∧
    (∀ x y : Int,
      placedAt (compositeCanvas ⟨⟨0, 0, 2, 2⟩, fun _ _ => 7⟩ ⟨⟨1, 1, 3, 3⟩, fun _ _ => 9⟩).1
        ⟨⟨0, 0, 2, 2⟩, fun _ _ => 7⟩ x y →
      ¬ placedAt (compositeCanvas ⟨⟨0, 0, 2, 2⟩, fun _ _ => 7⟩ ⟨⟨1, 1, 3, 3⟩, fun _ _ => 9⟩).1
        ⟨⟨1, 1, 3, 3⟩, fun _ _ => 9⟩ x y →
      (compositeCanvas ⟨⟨0, 0, 2, 2⟩, fun _ _ => 7⟩ ⟨⟨1, 1, 3, 3⟩, fun _ _ => 9⟩).2 x y = 7) ∧
    (∀ x y : Int,
      placedAt (compositeCanvas ⟨⟨0, 0, 2, 2⟩, fun _ _ => 7⟩ ⟨⟨1, 1, 3, 3⟩, fun _ _ => 9⟩).1
        ⟨⟨1, 1, 3, 3⟩, fun _ _ => 9⟩ x y →
      (compositeCanvas ⟨⟨0, 0, 2, 2⟩, fun _ _ => 7⟩ ⟨⟨1, 1, 3, 3⟩, fun _ _ => 9⟩).2 x y = 9) :=
  C1_union_bounds_and_offsets ⟨⟨0, 0, 2, 2⟩, fun _ _ => 7⟩ ⟨⟨1, 1, 3, 3⟩, fun _ _ => 9⟩
    (by decide) (by decide) (by decide) (by decide)

/-- C2: at every canvas position lying in both the background's and the
foreground's placement, the composite's pixel is the foreground snapshot's
pixel at that position (the foreground is blitted last). -/
theorem C2_foreground_precedence (behind child : Snapshot) (x y : Int)
    (hb : placedAt (compositeCanvas behind child).1 behind x y)
    (hc : placedAt (compositeCanvas behind child).1 child x y) :
    (compositeCanvas behind child).2 x y =
      child.buf (x - (child.ext.left - (compositeCanvas behind child).1.left))
        (y - (child.ext.top - (compositeCanvas behind child).1.top)) := by
  unfold compositeCanvas placedAt at *
  unfold BlitBitmap
  dsimp only at *
  rw [if_pos (by omega)]

/-- Witness for C2: a concrete overlapping pixel reads the foreground
value. -/
theorem C2_foreground_precedence_witness :
    (compositeCanvas ⟨⟨0, 0, 2, 2⟩, fun _ _ => 7⟩ ⟨⟨1, 1, 3, 3⟩, fun _ _ => 9⟩).2 1 1 =
      (fun _ _ => 9) ((1 : Int) - (1 - 0)) ((1 : Int) - (1 - 0)) :=
  C2_foreground_precedence ⟨⟨0, 0, 2, 2⟩, fun _ _ => 7⟩ ⟨⟨1, 1, 3, 3⟩, fun _ _ => 9⟩ 1 1
    (by unfold placedAt compositeCanvas; dsimp only; refine ⟨by decide, by decide, by decide, by decide⟩)
    (by unfold placedAt compositeCanvas; dsimp only; refine ⟨by decide, by decide, by decide, by decide⟩)

/-- Sanitization acts elementwise on the character list. -/
lemma sanitizeFileName_data (s : String) :
    (sanitizeFileName s).data =
      s.data.map (fun c => if isIllegalFileChar c then '_' else c) := rfl

/-- Sanitization cannot turn a non-empty name into an empty one. -/
lemma sanitizeFileName_data_eq_nil (s : String) :
    (sanitizeFileName s).data = [] ↔ s.data = [] := by
  rw [sanitizeFileName_data]
  simp

/-- C6: the output base name is the window title when non-empty, else the
class name, with filesystem-illegal characters replaced by underscores, and
the literal `"window"` exactly when both title and class name are empty;
concretely, `"a/b:c"` gives `"a_b_c"`, an empty title with class `"Edit"`
gives `"Edit"`, and both empty give `"window"`. -/
theorem C6_base_name (title className : String) :
    (title.data ≠ [] → GenerateBaseName title className = sanitizeFileName title) ∧
    (title.data = [] → className.data ≠ [] →
      GenerateBaseName title className = sanitizeFileName className) ∧
    (title.data = [] → className.data = [] →
      GenerateBaseName title className = "window") ∧
    GenerateBaseName "a/b:c" "zzz" = "a_b_c" ∧
    GenerateBaseName "" "Edit" = "Edit" ∧
    GenerateBaseName "" "" = "window" := by
  refine ⟨?_, ?_, ?_, by decide, by decide, by decide⟩
  · intro ht
    have h1 : title.data.isEmpty = false := by
      cases h : title.data
      · exact absurd h ht
      · rfl
    have h2 : (sanitizeFileName title).data.isEmpty = false := by
      cases h : (sanitizeFileName title).data
      · exact absurd ((sanitizeFileName_data_eq_nil title).mp h) ht
      · rfl
    unfold GenerateBaseName
    rw [h1]
    simp [h2]
  · intro ht hc
    have h1 : title.data.isEmpty = true := by rw [ht]; rfl
    have h2 : (sanitizeFileName className).data.isEmpty = false := by
      cases h : (sanitizeFileName className).data
      · exact absurd ((sanitizeFileName_data_eq_nil className).mp h) hc
      · rfl
    unfold GenerateBaseName
    rw [h1]
    simp [h2]
  · intro ht hc
    have h1 : title.data.isEmpty = true := by rw [ht]; rfl
    have h2 : (sanitizeFileName className).data.isEmpty = true := by
      rw [(sanitizeFileName_data_eq_nil className).mpr hc]
      rfl
    unfold GenerateBaseName
    rw [h1]
    simp [h2]

/-- Witness for C6 at concrete titles and class names. -/
theorem C6_base_name_witness :
    GenerateBaseName "a/b:c" "ignored" = sanitizeFileName "a/b:c" ∧
    GenerateBaseName "" "Edit" = sanitizeFileName "Edit" ∧
    GenerateBaseName "" "" = "window" :=
  ⟨(C6_base_name "a/b:c" "ignored").1 (by decide),
   (C6_base_name "" "Edit").2.1 rfl (by decide),
   (C6_base_name "" "").2.2.1 rfl rfl⟩

/-- C9: the claim that computing the output file path never aborts is
violated by the code: `GenerateFileName` assembles the path with
`wcscpy_s`/`wcscat_s` into a fixed `WCHAR[MAX_PATH]` buffer, and a
255-character window title together with an 8-character base directory
overflows it, invoking the invalid-parameter handler (process abort, the
model's `error`) instead of returning normally. -/
theorem C9_long_title_aborts_path_generation :
    GenerateFileName "C:\\shots" (String.mk (List.replicate 255 'a')) "Edit" =
      .error () := by
  set_option maxRecDepth 4000 in rfl

/-- `decValue` peels the last digit off. -/
lemma decValue_append_singleton (l : List Char) (c : Char) :
    decValue (l ++ [c]) = 10 * decValue l + decDigitVal c := by
  simp [decValue, List.foldl_append]

/-- `Nat.digitChar` of a decimal digit evaluates back to the digit. -/
lemma digitChar_val (d : Nat) (h : d < 10) :
    decDigitVal (Nat.digitChar d) = d := by
  interval_cases d <;> rfl

/-- The accumulator of `Nat.toDigitsCore` is an append. -/
lemma toDigitsCore_ten_append (fuel : Nat) : ∀ (n : Nat) (l : List Char),
    Nat.toDigitsCore 10 fuel n l = Nat.toDigitsCore 10 fuel n [] ++ l := by
  induction fuel with
  | zero => intro n l; simp [Nat.toDigitsCore]
  | succ f ih =>
    intro n l
    simp only [Nat.toDigitsCore]
    by_cases h : n / 10 = 0
    · simp [h]
    · simp only [h, if_false]
      rw [ih (n / 10) (Nat.digitChar (n % 10) :: l),
        ih (n / 10) [Nat.digitChar (n % 10)]]
      simp

/-- Reading the decimal digits produced by `Nat.toDigitsCore` recovers the
number. -/
lemma decValue_toDigitsCore (fuel : Nat) : ∀ n : Nat, n < fuel →
    decValue (Nat.toDigitsCore 10 fuel n []) = n := by
  induction fuel with
  | zero => intro n h; omega
  | succ f ih =>
    intro n h
    simp only [Nat.toDigitsCore]
    by_cases h0 : n / 10 = 0
    · have hn : n < 10 := by
        rcases Nat.lt_or_ge n 10 with h' | h'
        · exact h'
        · exact absurd h0 (by
            have := Nat.one_le_div_iff (show 0 < 10 by norm_num) |>.mpr h'
            omega)
      simp only [h0, if_true]
      have hone : decValue [Nat.digitChar (n % 10)] =
          decDigitVal (Nat.digitChar (n % 10)) := by
        simp [decValue]
      rw [hone, digitChar_val _ (Nat.mod_lt n (by norm_num))]
      omega
    · have hn : 0 < n := by
        rcases Nat.eq_zero_or_pos n with h' | h'
        · exact absurd (by simp [h']) h0
        · exact h'
      simp only [h0, if_false]
      rw [toDigitsCore_ten_append, decValue_append_singleton]
      have hdiv : n / 10 < n := Nat.div_lt_self hn (by norm_num)
      rw [ih (n / 10) (by omega), digitChar_val _ (Nat.mod_lt n (by norm_num))]
      omega

/-- Decimal printing of naturals is injective. -/
lemma nat_repr_inj {m n : Nat} (h : Nat.repr m = Nat.repr n) : m = n := by
  have hm := decValue_toDigitsCore (m + 1) m (Nat.lt_succ_self m)
  have hn := decValue_toDigitsCore (n + 1) n (Nat.lt_succ_self n)
  unfold Nat.repr at h
  have hd : Nat.toDigits 10 m = Nat.toDigits 10 n := by
    have h2 := congrArg String.data h
    simpa [List.asString] using h2
  unfold Nat.toDigits at hd
  rw [← hm, ← hn, hd]

/-- Distinct loop indices give distinct candidate paths. -/
lemma mkCandidate_inj (p : String) {i j : Nat}
    (h : mkCandidate p i = mkCandidate p j) : i = j := by
  unfold mkCandidate at h
  have hd := congrArg String.data h
  simp only [String.data_append, List.append_assoc] at hd
  have h1 := List.append_cancel_left hd
  have h2 := List.append_cancel_left h1
  have h3 := List.append_cancel_right h2
  exact nat_repr_inj (String.ext h3)

/-- Pigeonhole: if every candidate below `n` collides with an existing file,
`n` is at most one past the filesystem size (so the loop's fuel suffices). -/
lemma leastFreeIdx_le (fs : List String) (p : String) (n : Nat) (h1 : 1 ≤ n)
    (hall : ∀ m, 1 ≤ m → m < n → pathFileExists fs (mkCandidate p m) = true) :
    n ≤ fs.length + 1 := by
  by_contra hlt
  push_neg at hlt
  have hnodup : ((List.range (fs.length + 1)).map
      (fun k => mkCandidate p (k + 1))).Nodup := by
    apply List.Nodup.map
    · intro a b hab
      have := mkCandidate_inj p hab
      omega
    · exact List.nodup_range _
  have hsub : ((List.range (fs.length + 1)).map
      (fun k => mkCandidate p (k + 1))).toFinset ⊆ fs.toFinset := by
    intro s hs
    rw [List.mem_toFinset, List.mem_map] at hs
    obtain ⟨k, hk, rfl⟩ := hs
    rw [List.mem_range] at hk
    rw [List.mem_toFinset]
    exact (pathFileExists_iff fs _).mp (hall (k + 1) (by omega) (by omega))
  have hcard := Finset.card_le_card hsub
  rw [List.toFinset_card_of_nodup hnodup] at hcard
  have h2 := List.toFinset_card_le fs
  simp at hcard
  omega

/-- The fuel-bounded loop returns the least free index when that index is
within fuel reach. -/
lemma firstFreeIdx_spec (fs : List String) (p : String) :
    ∀ (fuel idx n : Nat), idx ≤ n → n < idx + fuel →
      pathFileExists fs (mkCandidate p n) = false →
      (∀ m, idx ≤ m → m < n → pathFileExists fs (mkCandidate p m) = true) →
      firstFreeIdx fs p fuel idx = n := by
  intro fuel
  induction fuel with
  | zero => intro idx n hle hlt _ _; omega
  | succ f ih =>
    intro idx n hle hlt hfree hall
    unfold firstFreeIdx
    by_cases hx : idx = n
    · subst hx
      rw [hfree]
      simp
    · rw [hall idx le_rfl (by omega)]
      simp only [if_true]
      exact ih (idx + 1) n (by omega) (by omega) hfree
        (fun m hm1 hm2 => hall m (by omega) hm2)

/-- C5: path allocation returns the requested path unchanged when no file
exists at it; when one does, it returns the first candidate `base-N ext`
(`N` starting at 1 and increasing by 1) that does not collide — `n` below
is the least free index.  Successive allocations against `name.png` yield
`name-1.png` then `name-2.png` (witness). -/
theorem C5_unique_path_allocation (fs : List String) (p : String) (n : Nat)
    (h1 : 1 ≤ n)
    (hfree : pathFileExists fs (mkCandidate p n) = false)
    (hmin : ∀ m, 1 ≤ m → m < n → pathFileExists fs (mkCandidate p m) = true) :
    (pathFileExists fs p = false → EnsureUniquePath fs p = p) ∧
    (pathFileExists fs p = true → EnsureUniquePath fs p = mkCandidate p n) := by
  constructor
  · intro hp
    unfold EnsureUniquePath
    rw [hp]
    simp
  · intro hp
    unfold EnsureUniquePath
    rw [hp]
    simp only [if_true]
    congr 1
    have hb := leastFreeIdx_le fs p n h1 hmin
    exact firstFreeIdx_spec fs p (fs.length + 1) 1 n h1 (by omega) hfree
      (fun m hm1 hm2 => hmin m hm1 hm2)

/-- Witness for C5: no-collision identity, then two successive allocations
against an existing `name.png` (with the first result persisted). -/
theorem C5_unique_path_allocation_witness :
    EnsureUniquePath ["other.png"] "name.png" = "name.png" ∧
    EnsureUniquePath ["name.png"] "name.png" = "name-1.png" ∧
    EnsureUniquePath ["name.png", "name-1.png"] "name.png" = "name-2.png" := by
  refine ⟨?_, ?_, ?_⟩
  · exact (C5_unique_path_allocation ["other.png"] "name.png" 1 (by decide)
      (by decide) (fun m hm1 hm2 => absurd hm2 (by omega))).1 (by decide)
  · have h := (C5_unique_path_allocation ["name.png"] "name.png" 1 (by decide)
      (by decide) (fun m hm1 hm2 => absurd hm2 (by omega))).2 (by decide)
    rw [h]
    decide
  · have h := (C5_unique_path_allocation ["name.png", "name-1.png"] "name.png" 2
      (by decide) (by decide) (fun m hm1 hm2 => by
        have hm : m = 1 := by omega
        subst hm
        decide)).2 (by decide)
    rw [h]
    decide

/-- Each probe of the code equals the claim-side candidate at the probed
point. -/
lemma probe_eq_spec (env : WinEnv) (child : Nat) (cx topY d : Int) :
    FindLikelyParentProbe env child cx topY d =
      SpecProbeCandidate env child (cx, topY - d) := by
  unfold FindLikelyParentProbe SpecProbeCandidate
  cases env.windowFromPoint (cx, topY - d) with
  | none => rfl
  | some h =>
    cases hv : env.isWindowVisible h
    · simp [hv]
    · cases hr : ResolveTopLevel env h with
      | none => simp [hv, hr]
      | some top =>
        by_cases hne : (some top : Option Nat) ≠ ResolveTopLevel env child
        · simp [hv, hr, hne]
        · simp [hv, hr, hne]

/-- C7: for a valid primary window with known rectangle, the code's
background resolution equals the claim's description (probe the points 6,
14, 24 pixels above the top-centre in order; first visible candidate with a
differing top-level ancestor; owner-chain fallback), and the Shift+F11
branch degrades to a single-window capture exactly when that resolution is
null or returns the primary itself. -/
theorem C7_background_resolution (env : WinEnv) (primary : Nat) (rc : Rect)
    (hwin : env.isWindow primary = true)
    (hrc : env.getWindowRect primary = some rc) :
    FindLikelyParentByPoint env primary = SpecBackgroundResolve env primary rc ∧
    (∀ p : Nat, FindLikelyParentByPoint env primary = some p → p ≠ primary →
      GetMsgProcShiftAction env primary = .unionCapture primary p) ∧
    (FindLikelyParentByPoint env primary = none ∨
        FindLikelyParentByPoint env primary = some primary →
      GetMsgProcShiftAction env primary = .singleCapture primary) := by
  refine ⟨?_, ?_, ?_⟩
  · unfold FindLikelyParentByPoint SpecBackgroundResolve
    rw [hwin, hrc]
    dsimp only
    have hfs : (([6, 14, 24] : List Int).findSome?
        (FindLikelyParentProbe env primary
          (rc.left + Int.tdiv (rc.right - rc.left) 2) rc.top)) =
        (([(rc.left + Int.tdiv (rc.right - rc.left) 2, rc.top - 6),
           (rc.left + Int.tdiv (rc.right - rc.left) 2, rc.top - 14),
           (rc.left + Int.tdiv (rc.right - rc.left) 2, rc.top - 24)] :
          List (Int × Int)).findSome? (SpecProbeCandidate env primary)) := by
      simp only [List.findSome?_cons, List.findSome?_nil]
      rw [probe_eq_spec, probe_eq_spec, probe_eq_spec]
    simp only [Bool.true_eq_false, if_false]
    rw [hfs]
  · intro p hp hne
    unfold GetMsgProcShiftAction
    rw [hp]
    simp [hne]
  · intro hcase
    unfold GetMsgProcShiftAction
    rcases hcase with hc | hc <;> rw [hc] <;> simp

/-- Witness for C7 at the concrete environment `C7env`. -/
theorem C7_background_resolution_witness :
    FindLikelyParentByPoint C7env 1 = SpecBackgroundResolve C7env 1 ⟨0, 10, 10, 20⟩ ∧
    (∀ p : Nat, FindLikelyParentByPoint C7env 1 = some p → p ≠ 1 →
      GetMsgProcShiftAction C7env 1 = .unionCapture 1 p) ∧
    (FindLikelyParentByPoint C7env 1 = none ∨
        FindLikelyParentByPoint C7env 1 = some 1 →
      GetMsgProcShiftAction C7env 1 = .singleCapture 1) :=
  C7_background_resolution C7env 1 ⟨0, 10, 10, 20⟩ rfl rfl
